import Mathlib

/-!
Shallow embedding of the generation-job orchestration and credit-ledger
core of the repository (backend/app/crud.py, backend/app/worker.py,
backend/app/utils.py, backend/app/ComfyUIClient.py), together with
theorems settling the specification claims about it.

Modelling conventions:
* Database rows become Lean structures carrying the columns the claims
  talk about (timestamps are omitted: no claim mentions them).
* A SQLAlchemy session becomes a `SessionState`: the durably `committed`
  database plus the `current` in-transaction view.  `session.add` /
  `session.flush` stage rows into `current`; `session.commit` copies
  `current` into `committed`; `session.rollback` restores `current`
  from `committed`.
* External side effects (S3 upload, file-type sniffing) are pure
  function parameters; the remote HTTP exchange is a script of
  `HttpStep`s consumed by the client model.
* Autoincrement primary keys are modelled by explicit counters on `DB`.
-/

namespace GenCore

/-- Decidable equality for `Except`, so that witnesses and
counterexamples can be settled by `decide`. -/
instance exceptDecEq {ε α : Type} [DecidableEq ε] [DecidableEq α] :
    DecidableEq (Except ε α)
  | Except.error a, Except.error b =>
    if h : a = b then .isTrue (by rw [h])
    else .isFalse (fun hc => h (by cases hc; rfl))
  | Except.error _, Except.ok _ => .isFalse (fun hc => by cases hc)
  | Except.ok _, Except.error _ => .isFalse (fun hc => by cases hc)
  | Except.ok a, Except.ok b =>
    if h : a = b then .isTrue (by rw [h])
    else .isFalse (fun hc => h (by cases hc; rfl))

/-- One user row; `credit_balance` is the integer column added by the
initial migration and read/written by `crud.py`. -/
structure UserRow where
  id : Nat
  credit_balance : Int
  deriving DecidableEq

/-- One `generationjob` row (models.py `GenerationJob`, the columns the
worker sets). -/
structure GenerationJobRow where
  id : Nat
  user_id : Nat
  credits_consumed : Int
  job_type : String
  status : String
  deriving DecidableEq

/-- One `media` row (models.py `Media`, the columns the worker sets). -/
structure MediaRow where
  id : Nat
  user_id : Nat
  media_type : String
  file_type : String
  positive_prompt : String
  negative_prompt : String
  seed : Nat
  sd_model : String
  s3_url : String
  is_public : Bool
  origin_id : Option Nat
  generation_job_id : Option Nat
  deriving DecidableEq

/-- One `credittransaction` row (models.py `CreditTransaction`). -/
structure CreditTransactionRow where
  id : Nat
  user_id : Nat
  amount : Int
  transaction_type : String
  description : String
  deriving DecidableEq

/-- The relational state owned by the core, plus autoincrement counters. -/
structure DB where
  users : List UserRow
  jobs : List GenerationJobRow
  media : List MediaRow
  transactions : List CreditTransactionRow
  nextJobId : Nat
  nextMediaId : Nat
  nextTxId : Nat
  deriving DecidableEq

/-- A live database session: the durably committed state and the
in-transaction view (committed state plus staged writes). -/
structure SessionState where
  committed : DB
  current : DB
  deriving DecidableEq

/-- `select(User).where(User.id == user_id) ... .first()` -/
def findUser (users : List UserRow) (uid : Nat) : Option UserRow :=
  users.find? (fun u => u.id == uid)

/-- In-place mutation `user.credit_balance -= amount` as seen by the
session: rewrite the balance of the row(s) with the given id. -/
def updateBalance (users : List UserRow) (uid : Nat) (newBal : Int) : List UserRow :=
  users.map (fun u => if u.id == uid then { u with credit_balance := newBal } else u)

/-- crud.py, `deduct_user_credits` (lines 69-80): look the user up in the
session, return `false` with no state change when the user is missing or
`credit_balance < amount`; otherwise decrement the balance, `session.add`
the user and `session.commit()` — the commit makes the *whole* current
transaction view durable, not only the balance change. -/
def deduct_user_credits (s : SessionState) (uid : Nat) (amount : Int) :
    Bool × SessionState :=
  match findUser s.current.users uid with
  | none => (false, s)
  | some u =>
    if u.credit_balance < amount then
      (false, s)
    else
      let cur := { s.current with
        users := updateBalance s.current.users uid (u.credit_balance - amount) }
      (true, ⟨cur, cur⟩)

/-! ## Remote Job Client (ComfyUIClient.py) -/

/-- The fields of a RunPod response JSON that the client inspects:
`status` (absent key modelled as `none`), `output` with its optional
`message` list of base64 artifacts, and the job `id`. -/
structure OutputJson where
  message : Option (List String)
  deriving DecidableEq

/-- A decoded 200-response body from the remote endpoint. -/
structure RespJson where
  id : String
  status : Option String
  output : Option OutputJson
  deriving DecidableEq

/-- One HTTP exchange with the remote endpoint, as scripted input to the
client model: either `requests` raised (network/transport exception), or
a response arrived with a status code, raw body, and (when the code is
200) a decoded JSON. -/
inductive HttpStep where
  | exn (e : String)
  | resp (code : Nat) (body : String) (json : RespJson)
  deriving DecidableEq

/-- What a client call produces for its caller: a returned Python value
(`none` is Python `None`), a raised exception, or — when the scripted
poll responses run out while the job is still queued — the loop is still
running (`pending`), the caller blocked. -/
inductive ClientOutcome where
  | value (v : Option RespJson)
  | raised (e : String)
  | pending
  deriving DecidableEq

/-- A client call together with its observable polling effort: how many
status requests were issued and how many fixed 5-second sleeps happened. -/
structure PollTrace where
  outcome : ClientOutcome
  polls : Nat
  sleeps : Nat
  deriving DecidableEq

/-- The status lookup `resp_json.get("status", STATUS_FAILED)` of ComfyUIClient.py line 311. -/
def statusD (j : RespJson) : String :=
  j.status.getD "FAILED"

/-- Is the remote status one that keeps the poll loop running? -/
def statusInProgress (s : String) : Bool :=
  s == "IN_QUEUE" || s == "IN_PROGRESS"

/-- ComfyUIClient.py, `poll_for_completion` (lines 296-336), as a function
of the scripted status responses.  On a transport exception the loop
re-raises; on a non-200 response it logs the body and falls out of the
loop (implicitly returning Python `None`); on 200 it dispatches on the
status: `IN_QUEUE`/`IN_PROGRESS` sleep 5 seconds and poll again
(unboundedly), `COMPLETED` returns the payload, and `FAILED`,
`TIMED_OUT` or anything unrecognized fall out of the loop returning
`None`. -/
def poll_for_completion : List HttpStep → PollTrace
  | [] => ⟨.pending, 0, 0⟩
  | .exn e :: _ => ⟨.raised e, 1, 0⟩
  | .resp code _ json :: rest =>
    if code == 200 then
      if statusInProgress (statusD json) then
        let t := poll_for_completion rest
        ⟨t.outcome, t.polls + 1, t.sleeps + 1⟩
      else if statusD json == "FAILED" then ⟨.value none, 1, 0⟩
      else if statusD json == "COMPLETED" then ⟨.value (some json), 1, 0⟩
      else if statusD json == "TIMED_OUT" then ⟨.value none, 1, 0⟩
      else ⟨.value none, 1, 0⟩
    else ⟨.value none, 1, 0⟩

/-- ComfyUIClient.py, `post_request` (lines 238-294): on a transport
exception re-raise; on a 200 response return the JSON directly when it
already has an `output` key, otherwise switch to polling the given
status script; on a non-200 response log the raw body and fall through,
implicitly returning Python `None`. -/
def post_request (submit : HttpStep) (script : List HttpStep) : PollTrace :=
  match submit with
  | .exn e => ⟨.raised e, 0, 0⟩
  | .resp code _ json =>
    if code == 200 then
      if json.output.isSome then ⟨.value (some json), 0, 0⟩
      else poll_for_completion script
    else ⟨.value none, 0, 0⟩

/-! ## Remote-call layer (utils.py) -/

/-- One generated artifact as assembled by utils.py lines 290-296 /
352-358: the base64 data, the sniffed file type, and the seed the run
drew before submission. -/
structure Artifact where
  data : String
  file_type : String
  seed : Nat
  deriving DecidableEq

/-- utils.py line 288 / 350: the check that the response status equals
"COMPLETED" and that the response has an `output` key holding a
`message` key (a missing `status` key raises a KeyError, which the
surrounding handler turns into the same failure path, so it is folded
into the `false` case). -/
def responseOk (j : RespJson) : Bool :=
  j.status == some "COMPLETED" &&
    (match j.output with
     | some o => o.message.isSome
     | none => false)

/-- The artifact list built from the terminal payload: each base64 image
is tagged with its sniffed file type and the single seed drawn for the
run (utils.py lines 289-296; lines 351-358 are identical). -/
def tagArtifacts (seed : Nat) (fileTypeOf : String → String)
    (msgs : List String) : List Artifact :=
  msgs.map (fun m => ⟨m, fileTypeOf m, seed⟩)

/-- The `message` list of a terminal payload (empty when absent). -/
def messagesOf (j : RespJson) : List String :=
  (j.output.bind (fun o => o.message)).getD []

/-- utils.py lines 288-299: turn the value returned by the client into
either the artifact list or a raised exception (`None`, a non-COMPLETED
status, or a payload missing `output`/`message` all raise, wrapped by
the catch-all handler of the function). -/
def handle_generation_response (seed : Nat) (fileTypeOf : String → String) :
    Option RespJson → Except String (List Artifact)
  | none =>
    .error "Error in generate_media_from_text: NoneType is not subscriptable"
  | some j =>
    if responseOk j then
      .ok (tagArtifacts seed fileTypeOf (messagesOf j))
    else
      .error "Error in generate_media_from_text: Job failed with status"

/-- utils.py, `generate_media_from_text` (lines 249-302), parameterized
over the single random seed drawn at line 270, the file-type sniffer,
and the scripted remote exchange; workflow-template loading and node
updates (lines 260-283) are configuration steps with no bearing on any
claim and are elided.  Returns `none` when the poll loop is still
running (the caller is blocked), otherwise the returned
artifact list or raised error. -/
def generate_media_from_text (seed : Nat) (fileTypeOf : String → String)
    (submit : HttpStep) (script : List HttpStep) :
    Option (Except String (List Artifact)) :=
  match (post_request submit script).outcome with
  | .pending => none
  | .raised e => some (.error ("Error in generate_media_from_text: " ++ e))
  | .value v => some (handle_generation_response seed fileTypeOf v)

/-- Did the remote call fail (transport exception, a `None` return from
the client, or a terminal payload that is not a COMPLETED-with-message
one)?  `pending` is not a failure: the call has not returned at all. -/
def remoteCallFailed : ClientOutcome → Bool
  | .raised _ => true
  | .value none => true
  | .value (some j) => !(responseOk j)
  | .pending => false

/-! ## Generation Orchestrator (worker.py) -/

/-- The request payload the API layer enqueues (media.py builds it from
the validated request model): the fields the worker tasks read. -/
structure GenRequest where
  credit_cost : Int
  positive_prompt : String
  negative_prompt : String
  output_media_type : String
  sd_model : String
  is_public : Bool
  num_outputs : Nat
  input_image : String
  deriving DecidableEq

/-- The dictionary a worker task returns on success (worker.py lines
116-121 / 215-221), with the generated media represented by their row
ids. -/
structure TaskResult where
  status : String
  job_id : Nat
  credits_consumed : Int
  media_ids : List Nat
  deriving DecidableEq

/-- The media loop of the worker (worker.py lines 76-93 and 173-191): for
each artifact received, upload it to S3 and stage one `Media` row
carrying the prompts and model of the request, the file type and
seed of the artifact, the S3 location, the owning job id, and — for derived
generations — the origin media id.  `nextId` models the autoincrement
ids `session.flush()` assigns. -/
def stage_generated_media (uid : Nat) (req : GenRequest)
    (uploadToS3 : String → String) (jobId : Nat) (origin : Option Nat) :
    Nat → List Artifact → List MediaRow
  | _, [] => []
  | nextId, a :: rest =>
    { id := nextId
      user_id := uid
      media_type := req.output_media_type
      file_type := a.file_type
      positive_prompt := req.positive_prompt
      negative_prompt := req.negative_prompt
      seed := a.seed
      sd_model := req.sd_model
      s3_url := uploadToS3 a.data
      is_public := req.is_public
      origin_id := origin
      generation_job_id := some jobId } ::
      stage_generated_media uid req uploadToS3 jobId origin (nextId + 1) rest

/-- worker.py, `generate_media_from_text_task` (lines 52-129).  `gen` is
the outcome of the `generate_media_from_text` call at line 55, which
runs before any database session exists: when it raised, the exception
propagates with the database untouched.  Otherwise: stage the
`GenerationJob` (status "completed"), flush, stage one `Media` row per
artifact received, call `crud.deduct_user_credits` — whose returned
Bool the worker discards, and which itself commits the session when the
debit succeeds — stage the `CreditTransaction`, and commit.
`txStageFails` injects a database error (a PersistenceError in the
taxonomy of the spec) raised while staging the `CreditTransaction`, in which
case the handler at lines 125-127 rolls the session back and
re-raises. -/
def generate_media_from_text_task (req : GenRequest) (uid : Nat)
    (uploadToS3 : String → String) (gen : Except String (List Artifact))
    (txStageFails : Bool) (db : DB) : Except String TaskResult × DB :=
  match gen with
  | .error e => (.error e, db)
  | .ok artifacts =>
    let s0 : SessionState := ⟨db, db⟩
    let jobId := db.nextJobId
    let job : GenerationJobRow :=
      { id := jobId, user_id := uid, credits_consumed := req.credit_cost
        job_type := "text_to_image", status := "completed" }
    let rows := stage_generated_media uid req uploadToS3 jobId none
      db.nextMediaId artifacts
    let s2 : SessionState :=
      { s0 with current :=
        { s0.current with
          jobs := s0.current.jobs ++ [job]
          media := s0.current.media ++ rows
          nextJobId := jobId + 1
          nextMediaId := db.nextMediaId + artifacts.length } }
    let s3 := (deduct_user_credits s2 uid req.credit_cost).2
    if txStageFails then
      (.error "PersistenceError", s3.committed)
    else
      let tx : CreditTransactionRow :=
        { id := db.nextTxId, user_id := uid, amount := -req.credit_cost
          transaction_type := "image_generation"
          description := "Generated " ++ toString artifacts.length ++
            " images from text prompt" }
      let s4 : SessionState :=
        { s3 with current :=
          { s3.current with
            transactions := s3.current.transactions ++ [tx]
            nextTxId := db.nextTxId + 1 } }
      (.ok { status := "COMPLETED", job_id := jobId
             credits_consumed := req.credit_cost
             media_ids := rows.map (fun m => m.id) },
       s4.current)

/-- worker.py, `generate_media_from_media_task` (lines 131-229): same
shape as the text task, except that before the generated artifacts are
staged, the *input* image is uploaded and persisted as its own `Media`
row (media_type image, seed 0, no origin), and the `origin_id` of every
derived row points at that input row; all rows carry the one job id. -/
def generate_media_from_media_task (req : GenRequest) (uid : Nat)
    (uploadToS3 : String → String) (fileTypeOf : String → String)
    (gen : Except String (List Artifact)) (txStageFails : Bool) (db : DB) :
    Except String TaskResult × DB :=
  match gen with
  | .error e => (.error e, db)
  | .ok artifacts =>
    let s0 : SessionState := ⟨db, db⟩
    let jobId := db.nextJobId
    let job : GenerationJobRow :=
      { id := jobId, user_id := uid, credits_consumed := req.credit_cost
        job_type := "image_to_image", status := "completed" }
    let inputId := db.nextMediaId
    let inputMedia : MediaRow :=
      { id := inputId
        user_id := uid
        media_type := "image"
        file_type := fileTypeOf req.input_image
        positive_prompt := req.positive_prompt
        negative_prompt := req.negative_prompt
        seed := 0
        sd_model := req.sd_model
        s3_url := uploadToS3 req.input_image
        is_public := req.is_public
        origin_id := none
        generation_job_id := some jobId }
    let rows := stage_generated_media uid req uploadToS3 jobId (some inputId)
      (inputId + 1) artifacts
    let s2 : SessionState :=
      { s0 with current :=
        { s0.current with
          jobs := s0.current.jobs ++ [job]
          media := s0.current.media ++ (inputMedia :: rows)
          nextJobId := jobId + 1
          nextMediaId := inputId + 1 + artifacts.length } }
    let s3 := (deduct_user_credits s2 uid req.credit_cost).2
    if txStageFails then
      (.error "PersistenceError", s3.committed)
    else
      let tx : CreditTransactionRow :=
        { id := db.nextTxId, user_id := uid, amount := -req.credit_cost
          transaction_type := "image_generation"
          description := "Generated " ++ toString artifacts.length ++
            " images from input image" }
      let s4 : SessionState :=
        { s3 with current :=
          { s3.current with
            transactions := s3.current.transactions ++ [tx]
            nextTxId := db.nextTxId + 1 } }
      (.ok { status := "COMPLETED", job_id := jobId
             credits_consumed := req.credit_cost
             media_ids := rows.map (fun m => m.id) },
       s4.current)

/-! ## Concrete fixtures used by counterexamples and witnesses -/

/-- A pure stand-in for `upload_to_s3`: every artifact lands at one
bucket location (the claims never compare locations). -/
def upl0 : String → String := fun _ => "https://bucket.s3.amazonaws.com/obj"

/-- A pure stand-in for `determine_file_type`. -/
def ft0 : String → String := fun _ => "png"

/-- A database with one user, id 1, holding 0 credits. -/
def db0 : DB := ⟨[⟨1, 0⟩], [], [], [], 1, 1, 1⟩

/-- A database with one user, id 1, holding 10 credits. -/
def db10 : DB := ⟨[⟨1, 10⟩], [], [], [], 1, 1, 1⟩

/-- A request quoted at 5 credits for one output. -/
def req5 : GenRequest := ⟨5, "p", "n", "image", "sd", false, 1, "inputimg"⟩

/-- One generated artifact. -/
def art0 : Artifact := ⟨"b64data", "png", 42⟩

/-- A terminal TIMED_OUT status record as the remote would report it,
with its final output payload attached. -/
def jTimedOut : RespJson := ⟨"jid", some "TIMED_OUT", some ⟨some ["rec"]⟩⟩

/-- A terminal COMPLETED record with one artifact. -/
def jDone : RespJson := ⟨"jid", some "COMPLETED", some ⟨some ["img"]⟩⟩

/-- An IN_QUEUE status record. -/
def jQueue : RespJson := ⟨"jid", some "IN_QUEUE", none⟩

/-- An IN_PROGRESS status record. -/
def jProg : RespJson := ⟨"jid", some "IN_PROGRESS", none⟩

/-- A FAILED status record. -/
def jFail : RespJson := ⟨"jid", some "FAILED", none⟩

/-- An empty response body placeholder. -/
def j0 : RespJson := ⟨"", none, none⟩

/-- Is this scripted step a 200 response whose status keeps the poll
loop running? -/
def inProgressStep : HttpStep → Bool
  | .exn _ => false
  | .resp code _ json => code == 200 && statusInProgress (statusD json)

/-! ## Helper lemmas -/

/-- Looking a user up after `updateBalance` finds the same row with the
rewritten balance. -/
theorem findUser_updateBalance (users : List UserRow) (uid : Nat)
    (nb : Int) (u : UserRow) (hu : findUser users uid = some u) :
    findUser (updateBalance users uid nb) uid =
      some { u with credit_balance := nb } := by
  induction users with
  | nil => simp [findUser] at hu
  | cons v rest ih =>
    by_cases hv : v.id = uid
    · have hv' : (v.id == uid) = true := by simpa using hv
      simp [findUser, List.find?, hv'] at hu
      simp [findUser, updateBalance, List.find?, hv', ← hu]
    · have hv' : (v.id == uid) = false := by simpa using hv
      simp only [findUser, List.find?, hv'] at hu
      simpa [findUser, updateBalance, List.find?, hv'] using ih hu

/-- On a successful debit, `deduct_user_credits` decrements the balance
and commits the whole current transaction view. -/
theorem deduct_user_credits_success (s : SessionState) (uid : Nat)
    (amount : Int) (u : UserRow)
    (hu : findUser s.current.users uid = some u)
    (hle : amount ≤ u.credit_balance) :
    deduct_user_credits s uid amount =
      (true,
        ⟨{ s.current with
            users := updateBalance s.current.users uid (u.credit_balance - amount) },
         { s.current with
            users := updateBalance s.current.users uid (u.credit_balance - amount) }⟩) := by
  simp [deduct_user_credits, hu, not_lt.mpr hle]

/-- When the balance is insufficient, `deduct_user_credits` reports
failure and leaves both the committed and current state untouched. -/
theorem deduct_user_credits_insufficient (s : SessionState) (uid : Nat)
    (amount : Int) (u : UserRow)
    (hu : findUser s.current.users uid = some u)
    (hlt : u.credit_balance < amount) :
    deduct_user_credits s uid amount = (false, s) := by
  simp [deduct_user_credits, hu, hlt]

/-- Whatever the debit does, it never touches the job, media or
transaction tables of the current transaction view, nor the id
counters. -/
theorem deduct_user_credits_frame (s : SessionState) (uid : Nat) (amount : Int) :
    ((deduct_user_credits s uid amount).2).current.jobs = s.current.jobs ∧
    ((deduct_user_credits s uid amount).2).current.media = s.current.media ∧
    ((deduct_user_credits s uid amount).2).current.transactions = s.current.transactions ∧
    ((deduct_user_credits s uid amount).2).current.nextJobId = s.current.nextJobId ∧
    ((deduct_user_credits s uid amount).2).current.nextMediaId = s.current.nextMediaId ∧
    ((deduct_user_credits s uid amount).2).current.nextTxId = s.current.nextTxId := by
  unfold deduct_user_credits
  cases hu : findUser s.current.users uid with
  | none => simp
  | some u =>
    by_cases hlt : u.credit_balance < amount <;> simp [hlt]

/-- The staged media loop emits exactly one row per artifact. -/
theorem stage_generated_media_length (uid : Nat) (req : GenRequest)
    (upl : String → String) (jobId : Nat) (origin : Option Nat) :
    ∀ (nextId : Nat) (arts : List Artifact),
      (stage_generated_media uid req upl jobId origin nextId arts).length
        = arts.length := by
  intro nextId arts
  induction arts generalizing nextId with
  | nil => simp [stage_generated_media]
  | cons a rest ih => simp [stage_generated_media, ih]

/-- Every staged generated row carries the given origin reference and
job id, and its seed is the seed of one of the artifacts received. -/
theorem stage_generated_media_mem (uid : Nat) (req : GenRequest)
    (upl : String → String) (jobId : Nat) (origin : Option Nat) :
    ∀ (nextId : Nat) (arts : List Artifact) (m : MediaRow),
      m ∈ stage_generated_media uid req upl jobId origin nextId arts →
      m.origin_id = origin ∧ m.generation_job_id = some jobId ∧
        ∃ a ∈ arts, m.seed = a.seed := by
  intro nextId arts
  induction arts generalizing nextId with
  | nil => intro m hm; simp [stage_generated_media] at hm
  | cons a rest ih =>
    intro m hm
    simp only [stage_generated_media, List.mem_cons] at hm
    rcases hm with hm | hm
    · subst hm
      exact ⟨rfl, rfl, a, by simp⟩
    · obtain ⟨h1, h2, a', ha', h3⟩ := ih (nextId + 1) m hm
      exact ⟨h1, h2, a', by simp [ha'], h3⟩

/-! ## Claim theorems -/

/-- C1 (code bug): the claim says that when the ledger debit fails
(balance below the quoted cost at debit time) the whole unit of work
rolls back — no GenerationJob, Media or CreditTransaction row survives
and the run does not report success.  The code contradicts this:
worker.py line 104 discards the Bool returned by
`crud.deduct_user_credits`, so with user balance 0 and cost 5 the task
still commits the job row, the media row and even the CreditTransaction
row, leaves the balance untouched, and returns status COMPLETED. -/
theorem debit_failure_run_commits_all_rows_and_reports_success :
    (generate_media_from_text_task req5 1 upl0 (Except.ok [art0]) false db0).1
      = Except.ok ⟨"COMPLETED", 1, 5, [1]⟩ ∧
    (generate_media_from_text_task req5 1 upl0 (Except.ok [art0]) false db0).2.users
      = [⟨1, 0⟩] ∧
    (generate_media_from_text_task req5 1 upl0 (Except.ok [art0]) false db0).2.jobs.length
      = 1 ∧
    (generate_media_from_text_task req5 1 upl0 (Except.ok [art0]) false db0).2.media.length
      = 1 ∧
    (generate_media_from_text_task req5 1 upl0 (Except.ok [art0]) false db0).2.transactions.length
      = 1 := by decide

/-- C2 (code bug): the claim says all persistence and ledger effects
commit as one atomic unit and any exception before the final commit
leaves none of them persisted.  The code contradicts this:
`deduct_user_credits` itself calls `session.commit()` (crud.py line 79),
which durably commits the already-staged job and media rows together
with the balance decrement.  With balance 10, cost 5 and a database
error raised while staging the CreditTransaction, the rollback at
worker.py line 126 can no longer undo that mid-run commit: the final
state keeps the job row, the media row and the debited balance 5, with
no CreditTransaction row, while the task re-raises. -/
theorem exception_after_debit_leaves_partial_state :
    (generate_media_from_text_task req5 1 upl0 (Except.ok [art0]) true db10).1
      = Except.error "PersistenceError" ∧
    (generate_media_from_text_task req5 1 upl0 (Except.ok [art0]) true db10).2.users
      = [⟨1, 5⟩] ∧
    (generate_media_from_text_task req5 1 upl0 (Except.ok [art0]) true db10).2.jobs.length
      = 1 ∧
    (generate_media_from_text_task req5 1 upl0 (Except.ok [art0]) true db10).2.media.length
      = 1 ∧
    (generate_media_from_text_task req5 1 upl0 (Except.ok [art0]) true db10).2.transactions
      = [] := by decide

/-- C5 (confirmed): the debit primitive reads the current balance, fails
with no state change whatsoever when `balance < amount`, and otherwise
decrements and persists in the same step (after a successful debit the
committed and current states coincide); the resulting balance
`balance - amount` is never negative on the success path. -/
theorem deduct_user_credits_check_then_decrement
    (s : SessionState) (uid : Nat) (amount : Int) (u : UserRow)
    (hu : findUser s.current.users uid = some u) :
    (u.credit_balance < amount →
      deduct_user_credits s uid amount = (false, s)) ∧
    (amount ≤ u.credit_balance →
      (deduct_user_credits s uid amount).1 = true ∧
      ((deduct_user_credits s uid amount).2).committed
        = ((deduct_user_credits s uid amount).2).current ∧
      findUser ((deduct_user_credits s uid amount).2).current.users uid
        = some { u with credit_balance := u.credit_balance - amount } ∧
      0 ≤ u.credit_balance - amount) := by
  constructor
  · intro hlt
    exact deduct_user_credits_insufficient s uid amount u hu hlt
  · intro hle
    rw [deduct_user_credits_success s uid amount u hu hle]
    exact ⟨rfl, rfl,
      findUser_updateBalance s.current.users uid (u.credit_balance - amount) u hu,
      by omega⟩

/-- Witness for C5 at user 1 with balance 10 debiting 4. -/
theorem deduct_user_credits_check_then_decrement_witness :
    findUser (SessionState.mk db10 db10).current.users 1 = some ⟨1, 10⟩ ∧
    (((10 : Int) < 4 →
      deduct_user_credits ⟨db10, db10⟩ 1 4 = (false, ⟨db10, db10⟩)) ∧
    ((4 : Int) ≤ 10 →
      (deduct_user_credits ⟨db10, db10⟩ 1 4).1 = true ∧
      ((deduct_user_credits ⟨db10, db10⟩ 1 4).2).committed
        = ((deduct_user_credits ⟨db10, db10⟩ 1 4).2).current ∧
      findUser ((deduct_user_credits ⟨db10, db10⟩ 1 4).2).current.users 1
        = some ⟨1, (10 : Int) - 4⟩ ∧
      0 ≤ (10 : Int) - 4)) :=
  ⟨by decide,
   deduct_user_credits_check_then_decrement ⟨db10, db10⟩ 1 4 ⟨1, 10⟩ (by decide)⟩

/-- C7 (corrected): on an HTTP status other than 200 — at submission or
at a poll step — the client logs the raw body and implicitly returns
Python `None`: nothing is raised and the response body is not carried to
the caller, so the original claim that a transport failure carrying the
raw body is returned/raised does not hold. -/
theorem non200_logged_and_returns_none (code : Nat) (b : String)
    (j : RespJson) (script : List HttpStep) (h : code ≠ 200) :
    post_request (HttpStep.resp code b j) script
      = ⟨ClientOutcome.value none, 0, 0⟩ ∧
    poll_for_completion (HttpStep.resp code b j :: script)
      = ⟨ClientOutcome.value none, 1, 0⟩ := by
  constructor
  · simp [post_request, h]
  · simp [poll_for_completion, h]

/-- Witness for C7 at a scripted 404 response. -/
theorem non200_logged_and_returns_none_witness :
    (404 : Nat) ≠ 200 ∧
    (post_request (HttpStep.resp 404 "not found" j0) []
      = ⟨ClientOutcome.value none, 0, 0⟩ ∧
    poll_for_completion (HttpStep.resp 404 "not found" j0 :: [])
      = ⟨ClientOutcome.value none, 1, 0⟩) :=
  ⟨by decide, non200_logged_and_returns_none 404 "not found" j0 [] (by decide)⟩

/-- C7 counterexample: a 500 response with body "oops" at submission
makes `post_request` fall through and return Python `None` — a value
carrying no payload at all — and raise nothing, refuting the claim that
a transport failure carrying the raw body is returned or raised. -/
theorem non200_returns_bare_none_cex :
    post_request (HttpStep.resp 500 "oops" j0) []
      = ⟨ClientOutcome.value none, 0, 0⟩ ∧
    ClientOutcome.value none ≠ ClientOutcome.raised "oops" ∧
    poll_for_completion [HttpStep.resp 500 "oops" j0]
      = ⟨ClientOutcome.value none, 1, 0⟩ := by decide

/-- C3 (confirmed): whenever the remote call fails — a transport
exception, a `None` return from the client (failed/timed-out/non-200
poll), or a terminal payload that is not COMPLETED-with-message — the
generation function raises, and since it runs before any database
session is opened the task re-raises with the database bit-for-bit
unchanged: no job, media or transaction rows and an untouched
balance. -/
theorem remote_failure_no_db_mutation (seed : Nat)
    (ftype upl : String → String) (submit : HttpStep)
    (script : List HttpStep) (req : GenRequest) (uid : Nat)
    (txF : Bool) (db : DB)
    (h : remoteCallFailed (post_request submit script).outcome = true) :
    ∃ e, generate_media_from_text seed ftype submit script
        = some (Except.error e) ∧
      generate_media_from_text_task req uid upl (Except.error e) txF db
        = (Except.error e, db) := by
  cases ho : (post_request submit script).outcome with
  | pending => rw [ho] at h; simp [remoteCallFailed] at h
  | raised e =>
    exact ⟨"Error in generate_media_from_text: " ++ e,
      by simp [generate_media_from_text, ho], rfl⟩
  | value v =>
    cases v with
    | none =>
      exact ⟨"Error in generate_media_from_text: NoneType is not subscriptable",
        by simp [generate_media_from_text, ho, handle_generation_response], rfl⟩
    | some j =>
      rw [ho] at h
      simp only [remoteCallFailed, Bool.not_eq_true'] at h
      exact ⟨"Error in generate_media_from_text: Job failed with status",
        by simp [generate_media_from_text, ho, handle_generation_response, h], rfl⟩

/-- Witness for C3: submission accepted (200, no inline output), poll
reports FAILED, database db0 survives unchanged. -/
theorem remote_failure_no_db_mutation_witness :
    remoteCallFailed
      (post_request (HttpStep.resp 200 "" jQueue)
        [HttpStep.resp 200 "" jFail]).outcome = true ∧
    ∃ e, generate_media_from_text 7 ft0 (HttpStep.resp 200 "" jQueue)
        [HttpStep.resp 200 "" jFail] = some (Except.error e) ∧
      generate_media_from_text_task req5 1 upl0 (Except.error e) false db0
        = (Except.error e, db0) :=
  ⟨by decide,
   remote_failure_no_db_mutation 7 ft0 upl0 (HttpStep.resp 200 "" jQueue)
     [HttpStep.resp 200 "" jFail] req5 1 false db0 (by decide)⟩

/-- C8 (confirmed): the worker persists exactly one generated Media row
per artifact received — the new media table is the old one plus the
staged rows, one per artifact — independently of `num_outputs` (the
requested count is quantified over freely and never read by the
loop). -/
theorem one_media_row_per_artifact_received (req : GenRequest) (uid : Nat)
    (upl : String → String) (arts : List Artifact) (db : DB) :
    ((generate_media_from_text_task req uid upl (Except.ok arts) false db).2).media
      = db.media ++
        stage_generated_media uid req upl db.nextJobId none db.nextMediaId arts ∧
    ((generate_media_from_text_task req uid upl (Except.ok arts) false db).2).media.length
      = db.media.length + arts.length := by
  have h1 : ((generate_media_from_text_task req uid upl (Except.ok arts) false db).2).media
      = db.media ++
        stage_generated_media uid req upl db.nextJobId none db.nextMediaId arts := by
    dsimp only [generate_media_from_text_task]
    rw [if_neg (fun h => Bool.noConfusion h)]
    rw [(deduct_user_credits_frame _ _ _).2.1]
  refine ⟨h1, ?_⟩
  rw [h1]
  simp [stage_generated_media_length]

/-- C4 counterexample: with balance 0 and quoted cost 5, the run is
reported successful (status COMPLETED, credits_consumed 5) and records a
single CreditTransaction of amount -5 — magnitude 5 — yet the user
balance does not decrease at all (0 before, 0 after), because worker.py
line 104 ignores the failed debit.  So "the balance decreases by exactly
the transaction magnitude" is false for this reported-successful run. -/
theorem reported_success_balance_mismatch_cex :
    (generate_media_from_text_task req5 1 upl0 (Except.ok [art0]) false db0).1
      = Except.ok ⟨"COMPLETED", 1, 5, [1]⟩ ∧
    (generate_media_from_text_task req5 1 upl0 (Except.ok [art0]) false db0).2.transactions
      = [⟨1, 1, -5, "image_generation", "Generated 1 images from text prompt"⟩] ∧
    db0.users = [⟨1, 0⟩] ∧
    (generate_media_from_text_task req5 1 upl0 (Except.ok [art0]) false db0).2.users
      = [⟨1, 0⟩] ∧
    |(-5 : Int)| ≠ 0 := by decide

/-- C4 amended (proved): for every run reported successful *in which the
debit succeeded* (the user exists and the balance at debit time covers
the quoted nonnegative cost), `credits_consumed` on the GenerationJob
row equals the magnitude of the single CreditTransaction recorded for
the run, and the balance decreases by exactly that amount. -/
theorem reported_success_after_debit_ledger_consistent
    (req : GenRequest) (uid : Nat) (upl : String → String)
    (arts : List Artifact) (db : DB) (u : UserRow)
    (hu : findUser db.users uid = some u)
    (hle : req.credit_cost ≤ u.credit_balance)
    (hcost : 0 ≤ req.credit_cost) :
    ∃ r db', generate_media_from_text_task req uid upl (Except.ok arts) false db
        = (Except.ok r, db') ∧
      r.status = "COMPLETED" ∧
      r.credits_consumed = req.credit_cost ∧
      db'.jobs = db.jobs ++
        [⟨db.nextJobId, uid, req.credit_cost, "text_to_image", "completed"⟩] ∧
      db'.transactions = db.transactions ++
        [⟨db.nextTxId, uid, -req.credit_cost, "image_generation",
          "Generated " ++ toString arts.length ++ " images from text prompt"⟩] ∧
      |(-req.credit_cost)| = req.credit_cost ∧
      findUser db'.users uid
        = some { u with credit_balance := u.credit_balance - req.credit_cost } := by
  have hnl : ¬ (u.credit_balance < req.credit_cost) := not_lt.mpr hle
  dsimp only [generate_media_from_text_task]
  rw [if_neg (fun h => Bool.noConfusion h)]
  simp only [deduct_user_credits, hu, hnl]
  refine ⟨_, _, rfl, rfl, rfl, ?_, ?_, ?_, ?_⟩
  · rfl
  · rfl
  · rw [abs_neg, abs_of_nonneg hcost]
  · exact findUser_updateBalance db.users uid (u.credit_balance - req.credit_cost) u hu

/-- Witness for the amended C4 at user 1, balance 10, cost 5. -/
theorem reported_success_after_debit_ledger_consistent_witness :
    findUser db10.users 1 = some ⟨1, 10⟩ ∧
    req5.credit_cost ≤ (10 : Int) ∧
    (0 : Int) ≤ req5.credit_cost ∧
    ∃ r db', generate_media_from_text_task req5 1 upl0 (Except.ok [art0]) false db10
        = (Except.ok r, db') ∧
      r.status = "COMPLETED" ∧
      r.credits_consumed = req5.credit_cost ∧
      db'.jobs = db10.jobs ++
        [⟨db10.nextJobId, 1, req5.credit_cost, "text_to_image", "completed"⟩] ∧
      db'.transactions = db10.transactions ++
        [⟨db10.nextTxId, 1, -req5.credit_cost, "image_generation",
          "Generated " ++ toString [art0].length ++ " images from text prompt"⟩] ∧
      |(-req5.credit_cost)| = req5.credit_cost ∧
      findUser db'.users 1 = some ⟨1, (10 : Int) - req5.credit_cost⟩ :=
  ⟨by decide, by decide, by decide,
   reported_success_after_debit_ledger_consistent req5 1 upl0 [art0] db10
     ⟨1, 10⟩ (by decide) (by decide) (by decide)⟩

/-- C9 (confirmed): a successful image-to-image run with N generated
artifacts persists exactly one input Media row plus N derived rows; the
`origin_id` of each derived row equals the id of the input row and every
one of the N+1 rows carries the one GenerationJob id created for the
run. -/
theorem i2i_input_plus_derived_lineage (req : GenRequest) (uid : Nat)
    (upl ftype : String → String) (arts : List Artifact) (db : DB) :
    ∃ r db' input derived,
      generate_media_from_media_task req uid upl ftype (Except.ok arts) false db
        = (Except.ok r, db') ∧
      r.status = "COMPLETED" ∧
      db'.media = db.media ++ (input :: derived) ∧
      derived.length = arts.length ∧
      input.origin_id = none ∧
      input.generation_job_id = some db.nextJobId ∧
      ∀ m ∈ derived, m.origin_id = some input.id ∧
        m.generation_job_id = some db.nextJobId := by
  refine ⟨_, _,
    { id := db.nextMediaId, user_id := uid, media_type := "image",
      file_type := ftype req.input_image,
      positive_prompt := req.positive_prompt,
      negative_prompt := req.negative_prompt, seed := 0,
      sd_model := req.sd_model, s3_url := upl req.input_image,
      is_public := req.is_public, origin_id := none,
      generation_job_id := some db.nextJobId },
    stage_generated_media uid req upl db.nextJobId (some db.nextMediaId)
      (db.nextMediaId + 1) arts,
    rfl, rfl, ?_,
    stage_generated_media_length uid req upl db.nextJobId (some db.nextMediaId)
      (db.nextMediaId + 1) arts,
    rfl, rfl, ?_⟩
  · rw [(deduct_user_credits_frame _ _ _).2.1]
  · intro m hm
    have h := stage_generated_media_mem uid req upl db.nextJobId
      (some db.nextMediaId) (db.nextMediaId + 1) arts m hm
    exact ⟨h.1, h.2.1⟩

/-- Witness for C9: three artifacts (`num_outputs = 3` scenario) against
db0 — one input row plus three derived rows, lineage and job id as
claimed. -/
theorem i2i_input_plus_derived_lineage_witness :
    ∃ r db' input derived,
      generate_media_from_media_task req5 1 upl0 ft0
          (Except.ok [⟨"a", "png", 9⟩, ⟨"b", "png", 9⟩, ⟨"c", "png", 9⟩]) false db0
        = (Except.ok r, db') ∧
      r.status = "COMPLETED" ∧
      db'.media = db0.media ++ (input :: derived) ∧
      derived.length = [(⟨"a", "png", 9⟩ : Artifact), ⟨"b", "png", 9⟩, ⟨"c", "png", 9⟩].length ∧
      input.origin_id = none ∧
      input.generation_job_id = some db0.nextJobId ∧
      ∀ m ∈ derived, m.origin_id = some input.id ∧
        m.generation_job_id = some db0.nextJobId :=
  i2i_input_plus_derived_lineage req5 1 upl0 ft0
    [⟨"a", "png", 9⟩, ⟨"b", "png", 9⟩, ⟨"c", "png", 9⟩] db0

/-- C10 (confirmed): a run draws one seed before submission; on success
every artifact is tagged with that one seed, every generated Media row
persisted by the text task carries it, and in the image-to-image task
the seed of the input Media row is recorded as 0 regardless of the
drawn seed while every derived row again carries the drawn seed. -/
theorem single_seed_per_run (seed : Nat) (ftype upl : String → String)
    (submit : HttpStep) (script : List HttpStep) (arts : List Artifact)
    (req : GenRequest) (uid : Nat) (db : DB)
    (hgen : generate_media_from_text seed ftype submit script
      = some (Except.ok arts)) :
    (∀ a ∈ arts, a.seed = seed) ∧
    (∃ rows,
      (generate_media_from_text_task req uid upl (Except.ok arts) false db).2.media
        = db.media ++ rows ∧ ∀ m ∈ rows, m.seed = seed) ∧
    (∃ input derived,
      (generate_media_from_media_task req uid upl ftype (Except.ok arts) false db).2.media
        = db.media ++ (input :: derived) ∧ input.seed = 0 ∧
      ∀ m ∈ derived, m.seed = seed) := by
  have haseed : ∀ a ∈ arts, a.seed = seed := by
    unfold generate_media_from_text at hgen
    cases ho : (post_request submit script).outcome with
    | pending => rw [ho] at hgen; simp at hgen
    | raised e => rw [ho] at hgen; simp at hgen
    | value v =>
      rw [ho] at hgen
      cases v with
      | none => simp [handle_generation_response] at hgen
      | some j =>
        simp only [handle_generation_response, Option.some.injEq] at hgen
        by_cases hok : responseOk j
        · rw [if_pos hok] at hgen
          have harts : arts = tagArtifacts seed ftype (messagesOf j) := by
            cases hgen; rfl
          subst harts
          intro a ha
          simp only [tagArtifacts, List.mem_map] at ha
          obtain ⟨m, _, rfl⟩ := ha
          rfl
        · rw [if_neg hok] at hgen
          simp at hgen
  refine ⟨haseed, ⟨stage_generated_media uid req upl db.nextJobId none
      db.nextMediaId arts, ?_, ?_⟩, ?_⟩
  · exact (one_media_row_per_artifact_received req uid upl arts db).1
  · intro m hm
    obtain ⟨-, -, a, ha, hseed⟩ := stage_generated_media_mem uid req upl
      db.nextJobId none db.nextMediaId arts m hm
    rw [hseed]
    exact haseed a ha
  · refine
      ⟨{ id := db.nextMediaId, user_id := uid, media_type := "image",
         file_type := ftype req.input_image,
         positive_prompt := req.positive_prompt,
         negative_prompt := req.negative_prompt, seed := 0,
         sd_model := req.sd_model, s3_url := upl req.input_image,
         is_public := req.is_public, origin_id := none,
         generation_job_id := some db.nextJobId },
       stage_generated_media uid req upl db.nextJobId
         (some db.nextMediaId) (db.nextMediaId + 1) arts, ?_, rfl, ?_⟩
    · dsimp only [generate_media_from_media_task]
      rw [if_neg (fun h => Bool.noConfusion h)]
      rw [(deduct_user_credits_frame _ _ _).2.1]
    · intro m hm
      obtain ⟨-, -, a, ha, hseed⟩ := stage_generated_media_mem uid req upl
        db.nextJobId (some db.nextMediaId) (db.nextMediaId + 1) arts m hm
      rw [hseed]
      exact haseed a ha

/-- Witness for C10: a completed run whose single drawn seed is 7. -/
theorem single_seed_per_run_witness :
    generate_media_from_text 7 ft0 (HttpStep.resp 200 "" jQueue)
        [HttpStep.resp 200 "" jDone] = some (Except.ok [⟨"img", "png", 7⟩]) ∧
    ((∀ a ∈ ([⟨"img", "png", 7⟩] : List Artifact), a.seed = 7) ∧
     (∃ rows,
       (generate_media_from_text_task req5 1 upl0
           (Except.ok [⟨"img", "png", 7⟩]) false db0).2.media
         = db0.media ++ rows ∧ ∀ m ∈ rows, m.seed = 7) ∧
     (∃ input derived,
       (generate_media_from_media_task req5 1 upl0 ft0
           (Except.ok [⟨"img", "png", 7⟩]) false db0).2.media
         = db0.media ++ (input :: derived) ∧ input.seed = 0 ∧
       ∀ m ∈ derived, m.seed = 7)) :=
  ⟨by decide,
   single_seed_per_run 7 ft0 upl0 (HttpStep.resp 200 "" jQueue)
     [HttpStep.resp 200 "" jDone] [⟨"img", "png", 7⟩] req5 1 db0 (by decide)⟩

/-- C6 amended (proved): the poll loop runs exactly while the remote
status stays IN_QUEUE/IN_PROGRESS, sleeping once per such response, with
unbounded retries (a script of only in-progress responses leaves it
still polling after consuming them all); at the first 200 response whose
status is anything else it stops — returning the payload on COMPLETED
and Python `None` (a bare failure marker carrying nothing, the remote
record being only logged) on FAILED, TIMED_OUT or an unrecognized
status — and issues no further poll. -/
theorem poll_loop_termination_spec (pre : List HttpStep)
    (hpre : ∀ st ∈ pre, inProgressStep st = true)
    (b : String) (j : RespJson)
    (hterm : statusInProgress (statusD j) = false) :
    poll_for_completion (pre ++ [HttpStep.resp 200 b j]) =
      ⟨if statusD j == "COMPLETED" then ClientOutcome.value (some j)
        else ClientOutcome.value none,
       pre.length + 1, pre.length⟩ ∧
    poll_for_completion pre =
      ⟨ClientOutcome.pending, pre.length, pre.length⟩ := by
  induction pre with
  | nil =>
    refine ⟨?_, rfl⟩
    simp only [List.nil_append, poll_for_completion, hterm]
    by_cases h1 : statusD j = "FAILED"
    · simp [h1, statusInProgress]
    · by_cases h2 : statusD j = "COMPLETED"
      · simp [h2, statusInProgress]
      · by_cases h3 : statusD j = "TIMED_OUT"
        · simp [h1, h2, h3, statusInProgress]
        · simp [h1, h2, h3, statusInProgress, hterm]
  | cons st rest ih =>
    have hst : inProgressStep st = true := hpre st (by simp)
    have hrest : ∀ x ∈ rest, inProgressStep x = true :=
      fun x hx => hpre x (by simp [hx])
    cases st with
    | exn e => simp [inProgressStep] at hst
    | resp c bb jj =>
      simp only [inProgressStep, Bool.and_eq_true] at hst
      obtain ⟨hc, hip⟩ := hst
      have hc' : c = 200 := by simpa using hc
      subst hc'
      have IH := ih hrest
      constructor
      · simp [poll_for_completion, hip, IH.1]
      · simp [poll_for_completion, hip, IH.2]

/-- Witness for the amended C6: two in-progress responses then a
COMPLETED one — the loop returns the payload after exactly two sleeps
and three polls, and would still be polling after the two in-progress
responses alone. -/
theorem poll_loop_termination_spec_witness :
    (∀ st ∈ [HttpStep.resp 200 "" jQueue, HttpStep.resp 200 "" jProg],
      inProgressStep st = true) ∧
    statusInProgress (statusD jDone) = false ∧
    (poll_for_completion ([HttpStep.resp 200 "" jQueue,
        HttpStep.resp 200 "" jProg] ++ [HttpStep.resp 200 "x" jDone]) =
      ⟨if statusD jDone == "COMPLETED" then ClientOutcome.value (some jDone)
        else ClientOutcome.value none,
       [HttpStep.resp 200 "" jQueue, HttpStep.resp 200 "" jProg].length + 1,
       [HttpStep.resp 200 "" jQueue, HttpStep.resp 200 "" jProg].length⟩ ∧
     poll_for_completion [HttpStep.resp 200 "" jQueue, HttpStep.resp 200 "" jProg] =
      ⟨ClientOutcome.pending,
       [HttpStep.resp 200 "" jQueue, HttpStep.resp 200 "" jProg].length,
       [HttpStep.resp 200 "" jQueue, HttpStep.resp 200 "" jProg].length⟩) :=
  ⟨by decide, by decide,
   poll_loop_termination_spec
     [HttpStep.resp 200 "" jQueue, HttpStep.resp 200 "" jProg]
     (by decide) "x" jDone (by decide)⟩

/-- C6 counterexample: on a scripted TIMED_OUT record the loop does stop
after one poll and raises nothing, but it returns Python `None` — a
marker carrying no data — not a failure marker carrying the final
remote record `jTimedOut`, refuting that part of the claim. -/
theorem poll_timed_out_returns_bare_none_cex :
    poll_for_completion [HttpStep.resp 200 "" jTimedOut]
      = ⟨ClientOutcome.value none, 1, 0⟩ ∧
    ClientOutcome.value none ≠ ClientOutcome.value (some jTimedOut) := by decide

/-- Witness for C8 at a request asking for 3 outputs of which only one
artifact came back: exactly one media row is persisted. -/
theorem one_media_row_per_artifact_received_witness :
    ((generate_media_from_text_task { req5 with num_outputs := 3 } 1 upl0
        (Except.ok [art0]) false db0).2).media
      = db0.media ++ stage_generated_media 1 { req5 with num_outputs := 3 } upl0
          db0.nextJobId none db0.nextMediaId [art0] ∧
    ((generate_media_from_text_task { req5 with num_outputs := 3 } 1 upl0
        (Except.ok [art0]) false db0).2).media.length
      = db0.media.length + [art0].length :=
  one_media_row_per_artifact_received { req5 with num_outputs := 3 } 1 upl0 [art0] db0

end GenCore
